import Mathlib

/-!
Shallow embedding of the client connection registry of
`examples/pybullet/pybullet.c` (Kaedenn/bullet3): the global slot table
`sPhysicsClients1` / `sPhysicsClientsGUI` / `sNumPhysicsClients`, the
lookup-with-lazy-eviction `getPhysicsClient`, and the module entry points
`pybullet_connectPhysicsServer`, `pybullet_disconnectPhysicsServer`,
`pybullet_stepSimulation`, `pybullet_isConnected`,
`pybullet_getConnectionInfo`.

The transport layer (`b3ConnectPhysicsDirect`, `b3CanSubmitCommand`,
`b3SubmitClientCommandAndWaitStatus`, ...) lives outside the studied file; a
transport handle is modelled as an abstract handle whose liveness-probe answer
is a field, and the server side of each Command/Status exchange is an oracle
function passed to the operations.  Python-level exceptions
(`PyErr_SetString` + `return NULL`) are modelled as `Except.error`; an
ordinary Python return value is `Except.ok`.
-/

set_option autoImplicit false
set_option maxRecDepth 10000

namespace PyBullet

/-- `#define MAX_PHYSICS_CLIENTS 1024`: capacity of the slot table. -/
def MAX_PHYSICS_CLIENTS : Nat := 1024

/-- A `b3PhysicsClientHandle`: an abstract handle plus the answer the
`b3CanSubmitCommand` liveness probe currently gives for it. -/
structure Transport where
  handle : Nat
  canSubmit : Bool
deriving DecidableEq, Repr

/-- The connection methods of the `eCONNECT_...` enumeration that the
`switch (method)` of `pybullet_connectPhysicsServer` accepts in this build. -/
inductive ConnectionMethod where
  | GUI
  | GUI_MAIN_THREAD
  | GUI_SERVER
  | SHARED_MEMORY_SERVER
  | SHARED_MEMORY_GUI
  | DIRECT
  | GRPC
  | SHARED_MEMORY
  | UDP
  | TCP
deriving DecidableEq, Repr

/-- Modelled from the spec: the numeric values of the closed `eCONNECT_...`
enumeration (declared in a shared-memory header that is not part of the
studied file).  The development relies only on every code being nonzero —
so a freed `sPhysicsClientsGUI` entry (0) never matches a method — and on
distinct methods having distinct codes. -/
def methodCode : ConnectionMethod → Nat
  | .GUI => 1
  | .DIRECT => 2
  | .SHARED_MEMORY => 3
  | .UDP => 4
  | .TCP => 5
  | .GUI_SERVER => 7
  | .GUI_MAIN_THREAD => 8
  | .SHARED_MEMORY_SERVER => 9
  | .SHARED_MEMORY_GUI => 14
  | .GRPC => 20

/-- The request kinds this core submits itself: the two handshake commands of
`pybullet_connectPhysicsServer` and the step command of
`pybullet_stepSimulation`. -/
inductive CommandKind where
  | SyncBodyInfo
  | SyncUserData
  | StepSimulation
deriving DecidableEq, Repr

/-- Status completion tags (`b3GetStatusType` results) distinguished by the
studied code, plus a generic tag standing for any other reply. -/
inductive StatusType where
  | CMD_SYNC_BODY_INFO_COMPLETED
  | CMD_SYNC_USER_DATA_COMPLETED
  | CMD_STEP_FORWARD_SIMULATION_COMPLETED
  | CMD_FAILED
deriving DecidableEq, Repr

/-- Python-level errors raised by the studied entry points:
`BulletNotConnectedError` ("Not connected to physics server.") and the two
`BulletError` sites of `pybullet_connectPhysicsServer`. -/
inductive PyErr where
  | NotConnected
  | CapacityExceeded
  | ExclusivityViolation
deriving DecidableEq, Repr

/-- The process-wide registry state: the three global arrays/counters of
pybullet.c.  `sPhysicsClients1 : b3PhysicsClientHandle[1024]` (0 = free slot,
modelled as `none`), `sPhysicsClientsGUI : int[1024]` (the connection-method
code of the occupant, 0 when free), and the `int sNumPhysicsClients`
counter consulted by the capacity check. -/
structure RegistryState where
  sPhysicsClients1 : List (Option Transport)
  sPhysicsClientsGUI : List Nat
  sNumPhysicsClients : Int
deriving DecidableEq, Repr

/-- The initial state of the globals: `= {0}` initializers and a zero count. -/
def initState : RegistryState :=
  { sPhysicsClients1 := List.replicate MAX_PHYSICS_CLIENTS none
    sPhysicsClientsGUI := List.replicate MAX_PHYSICS_CLIENTS 0
    sNumPhysicsClients := 0 }

/-- The stored handle of slot `id` (reading `sPhysicsClients1[id]`), `none`
when the slot is free or the index is out of the list. -/
def slotAt (s : RegistryState) (id : Int) : Option Transport :=
  (s.sPhysicsClients1.getD id.toNat none)

/-- `getPhysicsClient(physicsClientId)`: the resolve lookup used at the top of
every per-connection operation.  Returns the stored handle when the id is in
range, the slot occupied and `b3CanSubmitCommand` succeeds; on a failed probe
it evicts the slot (`b3DisconnectSharedMemory`, zero both array entries,
`sNumPhysicsClients--`) and returns 0.  The pair is (result, updated state). -/
def getPhysicsClient (s : RegistryState) (physicsClientId : Int) :
    Option Transport × RegistryState :=
  if physicsClientId < 0 ∨ (MAX_PHYSICS_CLIENTS : Int) ≤ physicsClientId then
    (none, s)
  else
    match s.sPhysicsClients1.getD physicsClientId.toNat none with
    | none => (none, s)
    | some sm =>
      if sm.canSubmit then
        (some sm, s)
      else
        (none,
          { sPhysicsClients1 := s.sPhysicsClients1.set physicsClientId.toNat none
            sPhysicsClientsGUI := s.sPhysicsClientsGUI.set physicsClientId.toNat 0
            sNumPhysicsClients := s.sNumPhysicsClients - 1 })

/-- The `for (i = 0; i < MAX_PHYSICS_CLIENTS; i++) if (sPhysicsClients1[i] == 0)
{ freeIndex = i; break; }` scan of `pybullet_connectPhysicsServer`: the first
free index, or -1 when every entry is occupied. -/
def scanFree : List (Option Transport) → Int
  | [] => -1
  | none :: _ => 0
  | some _ :: rest =>
    if scanFree rest < 0 then -1 else scanFree rest + 1

/-- The exclusivity scan of `pybullet_connectPhysicsServer`: some entry of
`sPhysicsClientsGUI` equals `eCONNECT_GUI` or `eCONNECT_GUI_SERVER`. -/
def guiConnectionOpen (s : RegistryState) : Bool :=
  s.sPhysicsClientsGUI.any
    (fun c => c == methodCode .GUI || c == methodCode .GUI_SERVER)

/-- The environment of one `connect` call: the handle the transport
construction of the chosen method yields (`none` when construction fails and
`sm` stays 0), and the status the server returns to each submitted command. -/
structure ConnectEnv where
  openResult : Option Transport
  respond : CommandKind → StatusType

/-- The `freeIndex >= 0` body of `pybullet_connectPhysicsServer`: store the
new connection under `freeIndex`, then run the two-step handshake
(`b3InitSyncBodyInfoCommand` then `b3InitSyncUserDataCommand`), rolling the
slot back — with the source's `sNumPhysicsClients++` — when a round trip does
not return its expected completion tag. -/
def connectHandshake (s : RegistryState) (method : ConnectionMethod)
    (sm : Transport) (env : ConnectEnv) (freeIndex : Nat) :
    Except PyErr Int × RegistryState × List CommandKind :=
  if env.respond .SyncBodyInfo ≠ .CMD_SYNC_BODY_INFO_COMPLETED then
    (.ok (-1),
      { sPhysicsClients1 :=
          (s.sPhysicsClients1.set freeIndex (some sm)).set freeIndex none
        sPhysicsClientsGUI :=
          (s.sPhysicsClientsGUI.set freeIndex (methodCode method)).set freeIndex 0
        sNumPhysicsClients := s.sNumPhysicsClients + 1 + 1 },
      [CommandKind.SyncBodyInfo])
  else if env.respond .SyncUserData ≠ .CMD_SYNC_USER_DATA_COMPLETED then
    (.ok (-1),
      { sPhysicsClients1 :=
          (s.sPhysicsClients1.set freeIndex (some sm)).set freeIndex none
        sPhysicsClientsGUI :=
          (s.sPhysicsClientsGUI.set freeIndex (methodCode method)).set freeIndex 0
        sNumPhysicsClients := s.sNumPhysicsClients + 1 + 1 },
      [CommandKind.SyncBodyInfo, CommandKind.SyncUserData])
  else
    (.ok (freeIndex : Int),
      { sPhysicsClients1 := s.sPhysicsClients1.set freeIndex (some sm)
        sPhysicsClientsGUI := s.sPhysicsClientsGUI.set freeIndex (methodCode method)
        sNumPhysicsClients := s.sNumPhysicsClients + 1 },
      [CommandKind.SyncBodyInfo, CommandKind.SyncUserData])

/-- `pybullet_connectPhysicsServer(method, ...)`.  Result triple:
the Python-level result (`.error` = exception raised, `.ok n` = the integer
`freeIndex` returned, -1 on an ordinary failed connect), the updated globals,
and the trace of commands submitted during the call (the handshake).

Faithful to the source, including `sNumPhysicsClients++` (not `--`) on the
two handshake-failure rollback paths of `connectHandshake`. -/
def connect (s : RegistryState) (method : ConnectionMethod) (env : ConnectEnv) :
    Except PyErr Int × RegistryState × List CommandKind :=
  if (MAX_PHYSICS_CLIENTS : Int) ≤ s.sNumPhysicsClients then
    (.error .CapacityExceeded, s, [])
  else if method = .GUI ∧ guiConnectionOpen s then
    (.error .ExclusivityViolation, s, [])
  else
    match env.openResult with
    | none => (.ok (-1), s, [])
    | some sm =>
      if sm.canSubmit then
        if 0 ≤ scanFree s.sPhysicsClients1 then
          connectHandshake s method sm env (scanFree s.sPhysicsClients1).toNat
        else
          (.ok (-1), s, [])
      else
        (.ok (-1), s, [])

/-- `pybullet_disconnectPhysicsServer(physicsClientId)`: resolves the id
(with the eviction side effect of `getPhysicsClient`), raises
`BulletNotConnectedError` when nothing resolves, otherwise disconnects the
transport, zeroes both slot entries and decrements `sNumPhysicsClients`. -/
def disconnect (s : RegistryState) (physicsClientId : Int) :
    Except PyErr Unit × RegistryState :=
  match getPhysicsClient s physicsClientId with
  | (none, s1) => (.error .NotConnected, s1)
  | (some _, s1) =>
    (.ok (),
      { sPhysicsClients1 := s1.sPhysicsClients1.set physicsClientId.toNat none
        sPhysicsClientsGUI := s1.sPhysicsClientsGUI.set physicsClientId.toNat 0
        sNumPhysicsClients := s1.sNumPhysicsClients - 1 })

/-- `pybullet_stepSimulation(physicsClientId)`: resolves the id, raises
`BulletNotConnectedError` on failure, otherwise submits one step-simulation
command; `.ok (some ())` stands for the analytics tuple returned when the
status is `CMD_STEP_FORWARD_SIMULATION_COMPLETED`, `.ok none` for `Py_None`. -/
def stepSimulation (s : RegistryState) (physicsClientId : Int)
    (respond : CommandKind → StatusType) :
    Except PyErr (Option Unit) × RegistryState :=
  match getPhysicsClient s physicsClientId with
  | (none, s1) => (.error .NotConnected, s1)
  | (some sm, s1) =>
    if sm.canSubmit then
      if respond .StepSimulation = .CMD_STEP_FORWARD_SIMULATION_COMPLETED then
        (.ok (some ()), s1)
      else
        (.ok none, s1)
    else
      (.ok none, s1)

/-- `pybullet_isConnected(physicsClientId)`: 1 when the id resolves and the
probe succeeds, else 0; never raises for any integer id. -/
def isConnected (s : RegistryState) (physicsClientId : Int) :
    Int × RegistryState :=
  match getPhysicsClient s physicsClientId with
  | (none, s1) => (0, s1)
  | (some sm, s1) =>
    if sm.canSubmit then (1, s1) else (0, s1)

/-- `pybullet_getConnectionInfo(physicsClientId)`: the
`{isConnected, connectionMethod}` dictionary; `(0, 0)` (not connected,
method code 0) for any id that does not resolve; never raises. -/
def getConnectionInfo (s : RegistryState) (physicsClientId : Int) :
    (Int × Nat) × RegistryState :=
  match getPhysicsClient s physicsClientId with
  | (none, s1) => ((0, 0), s1)
  | (some sm, s1) =>
    if sm.canSubmit then
      ((1, s1.sPhysicsClientsGUI.getD physicsClientId.toNat 0), s1)
    else
      ((0, 0), s1)

/-- The number of occupied slots: how many simultaneously valid connection
ids the registry currently holds. -/
def countOccupied (s : RegistryState) : Nat :=
  s.sPhysicsClients1.countP (fun o => o.isSome)

/-- The states reachable from the initial globals by any sequence of calls to
the studied entry points. -/
inductive Reachable : RegistryState → Prop where
  | init : Reachable initState
  | connectStep {s : RegistryState} (method : ConnectionMethod)
      (env : ConnectEnv) : Reachable s → Reachable (connect s method env).2.1
  | disconnectStep {s : RegistryState} (id : Int) :
      Reachable s → Reachable (disconnect s id).2
  | resolveStep {s : RegistryState} (id : Int) :
      Reachable s → Reachable (getPhysicsClient s id).2
  | stepSimulationStep {s : RegistryState} (id : Int)
      (respond : CommandKind → StatusType) :
      Reachable s → Reachable (stepSimulation s id respond).2
  | isConnectedStep {s : RegistryState} (id : Int) :
      Reachable s → Reachable (isConnected s id).2
  | connectionInfoStep {s : RegistryState} (id : Int) :
      Reachable s → Reachable (getConnectionInfo s id).2

/-- The structural invariant of the globals: both arrays keep their declared
length and `sNumPhysicsClients` is an upper bound on the number of occupied
slots (it over-counts after handshake-failure rollbacks). -/
def Inv (s : RegistryState) : Prop :=
  s.sPhysicsClients1.length = MAX_PHYSICS_CLIENTS ∧
  s.sPhysicsClientsGUI.length = MAX_PHYSICS_CLIENTS ∧
  (countOccupied s : Int) ≤ s.sNumPhysicsClients

instance (s : RegistryState) : Decidable (Inv s) := by
  unfold Inv; infer_instance

/-- A transport whose probe succeeds, used as concrete test input. -/
def liveTransport : Transport := { handle := 7, canSubmit := true }

/-- An environment in which the transport opens and the server answers every
handshake command with its expected completion tag. -/
def envGood : ConnectEnv :=
  { openResult := some liveTransport
    respond := fun k => match k with
      | .SyncBodyInfo => .CMD_SYNC_BODY_INFO_COMPLETED
      | .SyncUserData => .CMD_SYNC_USER_DATA_COMPLETED
      | .StepSimulation => .CMD_STEP_FORWARD_SIMULATION_COMPLETED }

/-- An environment in which the transport opens but the synchronize-body-info
round trip comes back with a status other than its completion tag. -/
def envBadBodyInfo : ConnectEnv :=
  { openResult := some liveTransport
    respond := fun _ => .CMD_FAILED }

/-- A registry with every slot occupied by a live DIRECT connection and an
accurate counter. -/
def fullState : RegistryState :=
  { sPhysicsClients1 := List.replicate MAX_PHYSICS_CLIENTS (some liveTransport)
    sPhysicsClientsGUI := List.replicate MAX_PHYSICS_CLIENTS (methodCode .DIRECT)
    sNumPhysicsClients := (MAX_PHYSICS_CLIENTS : Int) }

/-- A transport whose liveness probe fails, used as concrete test input. -/
def deadTransport : Transport := { handle := 8, canSubmit := false }

/-- A registry whose slot 0 holds a live DIRECT connection. -/
def oneLiveState : RegistryState :=
  { sPhysicsClients1 :=
      (List.replicate MAX_PHYSICS_CLIENTS none).set 0 (some liveTransport)
    sPhysicsClientsGUI := (List.replicate MAX_PHYSICS_CLIENTS 0).set 0 (methodCode .DIRECT)
    sNumPhysicsClients := 1 }

/-- A registry whose slot 0 holds a connection whose probe now fails. -/
def oneDeadState : RegistryState :=
  { sPhysicsClients1 :=
      (List.replicate MAX_PHYSICS_CLIENTS none).set 0 (some deadTransport)
    sPhysicsClientsGUI := (List.replicate MAX_PHYSICS_CLIENTS 0).set 0 (methodCode .DIRECT)
    sNumPhysicsClients := 1 }

/-- Whether a Python-level result is an ordinary return value (`.ok`, an
integer handed back to the caller) as opposed to a raised exception. -/
def isOkResult : Except PyErr Int → Bool
  | .ok _ => true
  | .error _ => false

/-! ## Helper lemmas -/

/-- When the free-slot scan succeeds, it names an in-range index whose slot is
free, and every smaller index is occupied: it is the first free index. -/
theorem scanFree_spec (l : List (Option Transport)) (h : 0 ≤ scanFree l) :
    (scanFree l).toNat < l.length ∧
    l.getD (scanFree l).toNat none = none ∧
    (∀ j : Nat, j < (scanFree l).toNat → l.getD j none ≠ none) := by
  induction l with
  | nil => simp [scanFree] at h
  | cons x xs ih =>
    cases x with
    | none =>
      refine ⟨by simp [scanFree], by simp [scanFree], ?_⟩
      intro j hj
      simp [scanFree] at hj
    | some t =>
      by_cases hr : scanFree xs < 0
      · simp [scanFree, hr] at h
      · push_neg at hr
        obtain ⟨ih1, ih2, ih3⟩ := ih hr
        have hsf : scanFree (some t :: xs) = scanFree xs + 1 := by
          simp [scanFree, not_lt.mpr hr]
        have htn : (scanFree xs + 1).toNat = (scanFree xs).toNat + 1 := by omega
        rw [hsf, htn]
        refine ⟨by simpa using ih1, by simpa using ih2, ?_⟩
        intro j hj
        cases j with
        | zero => simp
        | succ n =>
          rw [List.getD_cons_succ]
          exact ih3 n (by omega)

/-- Clearing an occupied entry lowers the occupied count by one. -/
theorem countP_set_none (l : List (Option Transport)) (i : Nat) (t : Transport)
    (h : l.getD i none = some t) :
    l.countP (fun o => o.isSome) =
      ((l.set i none).countP (fun o => o.isSome)) + 1 := by
  induction l generalizing i with
  | nil => simp at h
  | cons x xs ih =>
    cases i with
    | zero =>
      rw [List.getD_cons_zero] at h
      subst h
      simp [List.countP_cons]
    | succ n =>
      rw [List.getD_cons_succ] at h
      rw [List.set_cons_succ]
      cases hp : x.isSome <;>
        simp [List.countP_cons, hp, ih n h]

/-- Filling a free in-range entry raises the occupied count by one. -/
theorem countP_set_some (l : List (Option Transport)) (i : Nat) (t : Transport)
    (hlen : i < l.length) (h : l.getD i none = none) :
    (l.set i (some t)).countP (fun o => o.isSome) =
      l.countP (fun o => o.isSome) + 1 := by
  induction l generalizing i with
  | nil => simp at hlen
  | cons x xs ih =>
    cases i with
    | zero =>
      rw [List.getD_cons_zero] at h
      subst h
      simp [List.countP_cons]
    | succ n =>
      rw [List.getD_cons_succ] at h
      rw [List.set_cons_succ]
      cases hp : x.isSome <;>
        simp [List.countP_cons, hp, ih n (by simpa using hlen) h]

/-- Reading back an entry just cleared yields `none`, whether or not the index
was in range (out of range, `set` is the identity and `getD` falls back). -/
theorem getD_set_none (l : List (Option Transport)) (i : Nat) :
    (l.set i none).getD i none = none := by
  rw [List.getD_eq_getElem?_getD]
  by_cases h : i < l.length
  · rw [List.getElem?_set_self h]
    rfl
  · rw [List.getElem?_eq_none (by simpa using h)]
    rfl

/-- Reading back an entry just written in range yields what was written. -/
theorem getD_set_some (l : List (Option Transport)) (i : Nat) (t : Transport)
    (h : i < l.length) :
    (l.set i (some t)).getD i none = some t := by
  rw [List.getD_eq_getElem?_getD, List.getElem?_set_self h]
  rfl

/-- Full characterization of a successful resolve: `getPhysicsClient` yields
a handle exactly for an in-range id whose slot is occupied by a transport
whose probe succeeds, and then it leaves the registry untouched. -/
theorem getPhysicsClient_some (s : RegistryState) (id : Int) (t : Transport)
    (s1 : RegistryState) :
    getPhysicsClient s id = (some t, s1) ↔
      (s1 = s ∧ 0 ≤ id ∧ id < (MAX_PHYSICS_CLIENTS : Int) ∧
        slotAt s id = some t ∧ t.canSubmit = true) := by
  unfold getPhysicsClient slotAt
  split
  · rename_i hrange
    constructor
    · intro h
      exact absurd (congrArg Prod.fst h) (by simp)
    · rintro ⟨-, h0, h1, -, -⟩
      omega
  · rename_i hrange
    split
    · rename_i hget
      constructor
      · intro h
        exact absurd (congrArg Prod.fst h) (by simp)
      · rintro ⟨-, -, -, hslot, -⟩
        rw [hget] at hslot
        exact absurd hslot (by simp)
    · rename_i sm hget
      split
      · rename_i hcs
        constructor
        · intro h
          have h1 : some sm = some t := congrArg Prod.fst h
          have h2 : s = s1 := congrArg Prod.snd h
          have hst : sm = t := Option.some_inj.mp h1
          exact ⟨h2.symm, by omega, by omega, by rw [hget, hst], hst ▸ hcs⟩
        · rintro ⟨hs, -, -, hslot, -⟩
          rw [hget] at hslot
          rw [Option.some_inj.mp hslot, hs]
      · rename_i hcs
        constructor
        · intro h
          exact absurd (congrArg Prod.fst h) (by simp)
        · rintro ⟨-, -, -, hslot, hlive⟩
          rw [hget] at hslot
          have hst : sm = t := Option.some_inj.mp hslot
          rw [hst] at hcs
          exact absurd hlive hcs

/-- Resolve on a negative id, an id at or beyond capacity, or a free slot:
no handle, registry untouched. -/
theorem getPhysicsClient_none_of_free (s : RegistryState) (id : Int)
    (h : id < 0 ∨ (MAX_PHYSICS_CLIENTS : Int) ≤ id ∨ slotAt s id = none) :
    getPhysicsClient s id = (none, s) := by
  unfold getPhysicsClient
  split
  · rfl
  · rename_i hrange
    split
    · rfl
    · rename_i sm hget
      exfalso
      rcases h with h | h | h
      · exact hrange (Or.inl h)
      · exact hrange (Or.inr h)
      · unfold slotAt at h
        rw [hget] at h
        exact Option.noConfusion h

/-- Resolve on an occupied in-range slot whose probe fails: lazy eviction —
the slot is freed, its method entry zeroed, the count decremented, and no
handle is returned. -/
theorem getPhysicsClient_evict (s : RegistryState) (id : Int) (t : Transport)
    (h0 : 0 ≤ id) (h1 : id < (MAX_PHYSICS_CLIENTS : Int))
    (h2 : slotAt s id = some t) (h3 : t.canSubmit = false) :
    getPhysicsClient s id =
      (none,
        { sPhysicsClients1 := s.sPhysicsClients1.set id.toNat none
          sPhysicsClientsGUI := s.sPhysicsClientsGUI.set id.toNat 0
          sNumPhysicsClients := s.sNumPhysicsClients - 1 }) := by
  unfold getPhysicsClient
  split
  · rename_i hrange
    omega
  · unfold slotAt at h2
    split
    · rename_i hget
      rw [hget] at h2
      exact Option.noConfusion h2
    · rename_i sm hget
      rw [hget] at h2
      have hst : sm = t := Option.some_inj.mp h2
      rw [if_neg (by rw [hst, h3]; exact Bool.false_ne_true)]

/-- A successful `disconnect` happened on an in-range, occupied, live slot,
and froze exactly that slot out of the registry. -/
theorem disconnect_ok (s : RegistryState) (id : Int)
    (h : (disconnect s id).1 = .ok ()) :
    0 ≤ id ∧ id < (MAX_PHYSICS_CLIENTS : Int) ∧
    (∃ t, slotAt s id = some t ∧ t.canSubmit = true) ∧
    (disconnect s id).2 =
      { sPhysicsClients1 := s.sPhysicsClients1.set id.toNat none
        sPhysicsClientsGUI := s.sPhysicsClientsGUI.set id.toNat 0
        sNumPhysicsClients := s.sNumPhysicsClients - 1 } := by
  unfold disconnect at h ⊢
  split at h
  · exact absurd h (by simp)
  · rename_i sm s1 hmatch
    obtain ⟨hs, h0, h1, hslot, hlive⟩ := (getPhysicsClient_some s id sm s1).mp hmatch
    subst hs
    exact ⟨h0, h1, ⟨sm, hslot, hlive⟩, rfl⟩

/-- After a successful `disconnect`, the id's slot is free. -/
theorem slotAt_after_disconnect (s : RegistryState) (id : Int)
    (h : (disconnect s id).1 = .ok ()) :
    slotAt (disconnect s id).2 id = none := by
  obtain ⟨-, -, -, hstate⟩ := disconnect_ok s id h
  rw [hstate]
  unfold slotAt
  exact getD_set_none _ _

/-- `pybullet_stepSimulation` only ever mutates the registry through its
resolve lookup. -/
theorem stepSimulation_snd (s : RegistryState) (id : Int)
    (respond : CommandKind → StatusType) :
    (stepSimulation s id respond).2 = (getPhysicsClient s id).2 := by
  unfold stepSimulation
  split
  · rename_i s1 hmatch
    rw [hmatch]
  · rename_i sm s1 hmatch
    rw [hmatch]
    split
    · split <;> rfl
    · rfl

/-- `pybullet_isConnected` only ever mutates the registry through its resolve
lookup. -/
theorem isConnected_snd (s : RegistryState) (id : Int) :
    (isConnected s id).2 = (getPhysicsClient s id).2 := by
  unfold isConnected
  split
  · rename_i s1 hmatch
    rw [hmatch]
  · rename_i sm s1 hmatch
    rw [hmatch]
    split <;> rfl

/-- `pybullet_getConnectionInfo` only ever mutates the registry through its
resolve lookup. -/
theorem getConnectionInfo_snd (s : RegistryState) (id : Int) :
    (getConnectionInfo s id).2 = (getPhysicsClient s id).2 := by
  unfold getConnectionInfo
  split
  · rename_i s1 hmatch
    rw [hmatch]
  · rename_i sm s1 hmatch
    rw [hmatch]
    split <;> rfl

/-- The initial globals satisfy the structural invariant. -/
theorem inv_init : Inv initState := by
  refine ⟨by simp [initState], by simp [initState], ?_⟩
  show ((countOccupied initState : Int) ≤ 0)
  have : countOccupied initState = 0 := by
    unfold countOccupied initState
    simp
  rw [this]
  simp

/-- Resolve preserves the structural invariant (eviction removes one occupied
slot and decrements the counter in step). -/
theorem inv_getPhysicsClient (s : RegistryState) (id : Int) (h : Inv s) :
    Inv (getPhysicsClient s id).2 := by
  obtain ⟨hl1, hl2, hcnt⟩ := h
  unfold getPhysicsClient
  split
  · exact ⟨hl1, hl2, hcnt⟩
  · split
    · exact ⟨hl1, hl2, hcnt⟩
    · rename_i sm hget
      split
      · exact ⟨hl1, hl2, hcnt⟩
      · refine ⟨by simpa using hl1, by simpa using hl2, ?_⟩
        show ((s.sPhysicsClients1.set id.toNat none).countP
                (fun o => o.isSome) : Int) ≤ s.sNumPhysicsClients - 1
        have hc := countP_set_none s.sPhysicsClients1 id.toNat sm hget
        unfold countOccupied at hcnt
        omega

/-- Disconnect preserves the structural invariant. -/
theorem inv_disconnect (s : RegistryState) (id : Int) (h : Inv s) :
    Inv (disconnect s id).2 := by
  unfold disconnect
  split
  · rename_i s1 hmatch
    have := inv_getPhysicsClient s id h
    rw [hmatch] at this
    exact this
  · rename_i sm s1 hmatch
    obtain ⟨hs, h0, h1, hslot, -⟩ := (getPhysicsClient_some s id sm s1).mp hmatch
    obtain ⟨hl1, hl2, hcnt⟩ := h
    rw [hs]
    refine ⟨by simpa using hl1, by simpa using hl2, ?_⟩
    show ((s.sPhysicsClients1.set id.toNat none).countP
            (fun o => o.isSome) : Int) ≤ s.sNumPhysicsClients - 1
    have hc := countP_set_none s.sPhysicsClients1 id.toNat sm hslot
    unfold countOccupied at hcnt
    omega

/-- Connect preserves the structural invariant, through every branch: the
error paths leave the state alone; a stored slot raises occupied count and
counter together; the handshake-failure rollback frees the slot while
incrementing the counter again, which only widens the inequality. -/
theorem inv_connect (s : RegistryState) (method : ConnectionMethod)
    (env : ConnectEnv) (h : Inv s) : Inv (connect s method env).2.1 := by
  obtain ⟨hl1, hl2, hcnt⟩ := h
  unfold connect
  split
  · exact ⟨hl1, hl2, hcnt⟩
  · split
    · exact ⟨hl1, hl2, hcnt⟩
    · split
      · exact ⟨hl1, hl2, hcnt⟩
      · rename_i sm hopen
        split
        · split
          · rename_i hscan
            obtain ⟨hlen, hfree, -⟩ := scanFree_spec s.sPhysicsClients1 hscan
            have hplus := countP_set_some s.sPhysicsClients1
              (scanFree s.sPhysicsClients1).toNat sm hlen hfree
            have hback := countP_set_none
              (s.sPhysicsClients1.set (scanFree s.sPhysicsClients1).toNat (some sm))
              (scanFree s.sPhysicsClients1).toNat sm
              (getD_set_some s.sPhysicsClients1 _ sm hlen)
            unfold countOccupied at hcnt
            unfold connectHandshake
            split
            · refine ⟨by simpa using hl1, by simpa using hl2, ?_⟩
              show (((s.sPhysicsClients1.set (scanFree s.sPhysicsClients1).toNat
                  (some sm)).set (scanFree s.sPhysicsClients1).toNat none).countP
                  (fun o => o.isSome) : Int) ≤ s.sNumPhysicsClients + 1 + 1
              omega
            · split
              · refine ⟨by simpa using hl1, by simpa using hl2, ?_⟩
                show (((s.sPhysicsClients1.set (scanFree s.sPhysicsClients1).toNat
                    (some sm)).set (scanFree s.sPhysicsClients1).toNat none).countP
                    (fun o => o.isSome) : Int) ≤ s.sNumPhysicsClients + 1 + 1
                omega
              · refine ⟨by simpa using hl1, by simpa using hl2, ?_⟩
                show ((s.sPhysicsClients1.set (scanFree s.sPhysicsClients1).toNat
                    (some sm)).countP
                    (fun o => o.isSome) : Int) ≤ s.sNumPhysicsClients + 1
                omega
          · exact ⟨hl1, hl2, hcnt⟩
        · exact ⟨hl1, hl2, hcnt⟩

/-- Every state reachable by any call sequence satisfies the structural
invariant: array lengths stay at capacity and `sNumPhysicsClients` bounds the
occupied-slot count from above. -/
theorem reachable_inv (s : RegistryState) (h : Reachable s) : Inv s := by
  induction h with
  | init => exact inv_init
  | connectStep method env _ ih => exact inv_connect _ method env ih
  | disconnectStep id _ ih => exact inv_disconnect _ id ih
  | resolveStep id _ ih => exact inv_getPhysicsClient _ id ih
  | stepSimulationStep id respond _ ih =>
    rw [stepSimulation_snd]
    exact inv_getPhysicsClient _ id ih
  | isConnectedStep id _ ih =>
    rw [isConnected_snd]
    exact inv_getPhysicsClient _ id ih
  | connectionInfoStep id _ ih =>
    rw [getConnectionInfo_snd]
    exact inv_getPhysicsClient _ id ih

/-- Characterization of a connect that hands back a non-negative id: the id
is the free-slot scan's result, both handshake round trips were submitted in
order, and each came back with its expected completion tag. -/
theorem connect_ok_char (s : RegistryState) (method : ConnectionMethod)
    (env : ConnectEnv) (n : Int) (s' : RegistryState) (tr : List CommandKind)
    (h : connect s method env = (.ok n, s', tr)) (hn : 0 ≤ n) :
    0 ≤ scanFree s.sPhysicsClients1 ∧
    n = scanFree s.sPhysicsClients1 ∧
    env.respond .SyncBodyInfo = .CMD_SYNC_BODY_INFO_COMPLETED ∧
    env.respond .SyncUserData = .CMD_SYNC_USER_DATA_COMPLETED ∧
    tr = [CommandKind.SyncBodyInfo, CommandKind.SyncUserData] := by
  unfold connect at h
  split at h
  · simp at h
  · split at h
    · simp at h
    · split at h
      · simp at h
        omega
      · rename_i sm hopen
        split at h
        · split at h
          · rename_i hscan
            unfold connectHandshake at h
            split at h
            · simp at h
              omega
            · split at h
              · simp at h
                omega
              · rename_i hb hu
                rw [not_ne_iff] at hb hu
                simp only [Prod.mk.injEq, Except.ok.injEq] at h
                obtain ⟨hid, -, htr⟩ := h
                refine ⟨hscan, ?_, hb, hu, htr.symm⟩
                rw [← hid, Int.toNat_of_nonneg hscan]
          · simp at h
            omega
        · simp at h
          omega

/-! ## Claim theorems -/

/-- Claim C1. The claim says a failed handshake round trip is reported as an
ordinary failed connect (it is: the call returns -1, not an exception),
tears the transport down and releases the slot (it does: both array entries
are zeroed), and leaves the registry state — including the occupied-slot
count used by the capacity check — exactly as before the call.  The last part
is false of the code: the rollback executes `sNumPhysicsClients++` instead of
`sNumPhysicsClients--`, so on an initially empty registry a single
handshake-failing connect ends with every slot free but the counter at 2. -/
theorem claimC1_handshake_rollback_eval :
    connect initState .DIRECT envBadBodyInfo =
      (.ok (-1),
        { sPhysicsClients1 := List.replicate MAX_PHYSICS_CLIENTS none
          sPhysicsClientsGUI := List.replicate MAX_PHYSICS_CLIENTS 0
          sNumPhysicsClients := 2 },
        [CommandKind.SyncBodyInfo]) ∧
    initState.sNumPhysicsClients = 0 :=
  ⟨by rfl, rfl⟩

/-- Claim C2, counterexample. The claim says every connect() requesting
InteractiveGUI or InteractiveGUIServer fails with ExclusivityViolation while
one of the two is open.  In the code the scan is guarded by
`method == eCONNECT_GUI` only, so with a GUI connection open a
GUI_SERVER connect is not checked: it succeeds with id 1. -/
theorem claimC2_counterexample :
    (connect initState .GUI envGood).1 = .ok 0 ∧
    guiConnectionOpen (connect initState .GUI envGood).2.1 = true ∧
    (connect (connect initState .GUI envGood).2.1 .GUI_SERVER envGood).1 = .ok 1 :=
  ⟨by rfl, by rfl, by rfl⟩

/-- Claim C2, amended: only a connect(InteractiveGUI) call is subject to the
exclusivity check; while any GUI or GUI_SERVER connection is open (and the
capacity check passes), connect(InteractiveGUI) fails with
ExclusivityViolation and the registry — hence the already-open connection's
slot — is left exactly as it was. -/
theorem claimC2_gui_exclusivity (s : RegistryState) (env : ConnectEnv)
    (hcap : s.sNumPhysicsClients < (MAX_PHYSICS_CLIENTS : Int))
    (hgui : guiConnectionOpen s = true) :
    connect s .GUI env = (.error .ExclusivityViolation, s, []) := by
  unfold connect
  rw [if_neg (not_le.mpr hcap), if_pos ⟨rfl, hgui⟩]

/-- Witness for C2's amended theorem: with the GUI connection of the first
call open, a second connect(GUI) fails with ExclusivityViolation. -/
theorem claimC2_witness :
    connect (connect initState .GUI envGood).2.1 .GUI envGood =
      (.error .ExclusivityViolation, (connect initState .GUI envGood).2.1, []) :=
  claimC2_gui_exclusivity (connect initState .GUI envGood).2.1 envGood
    (by decide) (by rfl)

/-- Claim C3, counterexample. The claim says disconnect on an already-freed
id is a no-op, not an error.  In the code the second disconnect raises
`BulletNotConnectedError`: after connect then disconnect, disconnecting id 0
again yields the NotConnected error. -/
theorem claimC3_counterexample :
    (disconnect ((connect initState .DIRECT envGood).2.1) 0).1 = .ok () ∧
    (disconnect (disconnect ((connect initState .DIRECT envGood).2.1) 0).2 0).1 =
      .error .NotConnected :=
  ⟨by rfl, by rfl⟩

/-- Claim C3, amended: after a successful disconnect(id), a second
disconnect(id) raises NotConnected — an error, not a silent no-op — and
leaves the registry exactly as the first call left it, so the effect of two
calls on the registry equals that of one. -/
theorem claimC3_disconnect_second_raises (s : RegistryState) (id : Int)
    (h : (disconnect s id).1 = .ok ()) :
    disconnect (disconnect s id).2 id =
      (.error .NotConnected, (disconnect s id).2) := by
  have hfree := slotAt_after_disconnect s id h
  generalize hgen : (disconnect s id).2 = s2 at hfree ⊢
  have hg := getPhysicsClient_none_of_free s2 id (Or.inr (Or.inr hfree))
  unfold disconnect
  rw [hg]

/-- Witness for C3's amended theorem, at the concrete connect/disconnect
scenario of the counterexample. -/
theorem claimC3_witness :
    disconnect (disconnect ((connect initState .DIRECT envGood).2.1) 0).2 0 =
      (.error .NotConnected,
        (disconnect ((connect initState .DIRECT envGood).2.1) 0).2) :=
  claimC3_disconnect_second_raises ((connect initState .DIRECT envGood).2.1) 0 (by rfl)

/-- Claim C4: over every sequence of calls to the studied entry points
starting from the initial globals, the number of simultaneously valid
(occupied) connection ids never exceeds the capacity constant 1024. -/
theorem claimC4_capacity_bound (s : RegistryState) (h : Reachable s) :
    countOccupied s ≤ MAX_PHYSICS_CLIENTS := by
  have hi := reachable_inv s h
  calc countOccupied s ≤ s.sPhysicsClients1.length := List.countP_le_length _
    _ = MAX_PHYSICS_CLIENTS := hi.1

/-- Witness for C4 at the initial state. -/
theorem claimC4_witness : countOccupied initState ≤ MAX_PHYSICS_CLIENTS :=
  claimC4_capacity_bound initState Reachable.init

/-- Claim C5, counterexample. The claim says the connect call on a full
registry fails with CapacityExceeded "returning an invalid id to the
caller".  The code raises the error as an exception (`PyErr_SetString` +
`return NULL`) and hands back no id at all — unlike the handshake-failure
path, which really does return the invalid id -1. -/
theorem claimC5_counterexample :
    (connect fullState .DIRECT envGood).1 = .error .CapacityExceeded ∧
    isOkResult (connect fullState .DIRECT envGood).1 = false ∧
    (connect fullState .DIRECT envGood).2.1 = fullState :=
  ⟨by rfl, by rfl, by rfl⟩

/-- Claim C5, amended: when the registry is full at the capacity constant
(under the structural invariant every reachable state satisfies), the next
connect() fails with CapacityExceeded, raised to the caller as a structured
non-fatal failure with no id returned, and the registry is left unchanged. -/
theorem claimC5_capacityExceeded (s : RegistryState) (method : ConnectionMethod)
    (env : ConnectEnv) (hInv : Inv s)
    (hfull : countOccupied s = MAX_PHYSICS_CLIENTS) :
    connect s method env = (.error .CapacityExceeded, s, []) := by
  have hc : (MAX_PHYSICS_CLIENTS : Int) ≤ s.sNumPhysicsClients := by
    have h3 := hInv.2.2
    rw [hfull] at h3
    exact h3
  unfold connect
  rw [if_pos hc]

/-- Witness for C5's amended theorem at the concrete full registry. -/
theorem claimC5_witness :
    connect fullState .SHARED_MEMORY envGood =
      (.error .CapacityExceeded, fullState, []) :=
  claimC5_capacityExceeded fullState .SHARED_MEMORY envGood (by decide) (by decide)

/-- Claim C6: after disconnect(id) succeeds, the id no longer resolves — the
lookup at the top of every per-connection operation returns nothing — and a
per-connection operation (stepSimulation, the one in the studied file)
invoked with that id surfaces the NotConnected error to the caller. -/
theorem claimC6_notConnected_after_disconnect (s : RegistryState) (id : Int)
    (respond : CommandKind → StatusType)
    (h : (disconnect s id).1 = .ok ()) :
    getPhysicsClient (disconnect s id).2 id = (none, (disconnect s id).2) ∧
    stepSimulation (disconnect s id).2 id respond =
      (.error .NotConnected, (disconnect s id).2) := by
  have hfree := slotAt_after_disconnect s id h
  have hg := getPhysicsClient_none_of_free (disconnect s id).2 id
    (Or.inr (Or.inr hfree))
  refine ⟨hg, ?_⟩
  unfold stepSimulation
  rw [hg]

/-- Witness for C6 at the concrete connect/disconnect scenario. -/
theorem claimC6_witness :
    getPhysicsClient (disconnect ((connect initState .DIRECT envGood).2.1) 0).2 0 =
      (none, (disconnect ((connect initState .DIRECT envGood).2.1) 0).2) ∧
    stepSimulation (disconnect ((connect initState .DIRECT envGood).2.1) 0).2 0
        envGood.respond =
      (.error .NotConnected,
        (disconnect ((connect initState .DIRECT envGood).2.1) 0).2) :=
  claimC6_notConnected_after_disconnect ((connect initState .DIRECT envGood).2.1) 0
    envGood.respond (by rfl)

/-- Claim C7: resolve returns the stored transport exactly when the id is in
range, the slot occupied and the liveness probe succeeds (leaving the
registry untouched); when the slot exists but the probe fails, resolve frees
the slot, zeroes its method entry, decrements the live-connection count and
reports no handle (the caller then raises NotConnected).  By construction of
the embedding this lazy eviction inside resolve is the only state change any
lookup performs. -/
theorem claimC7_resolve_spec (s : RegistryState) (id : Int) (t : Transport) :
    (getPhysicsClient s id = (some t, s) ↔
      (0 ≤ id ∧ id < (MAX_PHYSICS_CLIENTS : Int) ∧
        slotAt s id = some t ∧ t.canSubmit = true)) ∧
    (0 ≤ id → id < (MAX_PHYSICS_CLIENTS : Int) → slotAt s id = some t →
      t.canSubmit = false →
      getPhysicsClient s id =
        (none,
          { sPhysicsClients1 := s.sPhysicsClients1.set id.toNat none
            sPhysicsClientsGUI := s.sPhysicsClientsGUI.set id.toNat 0
            sNumPhysicsClients := s.sNumPhysicsClients - 1 })) := by
  constructor
  · constructor
    · intro hh
      exact ((getPhysicsClient_some s id t s).mp hh).2
    · intro hh
      exact (getPhysicsClient_some s id t s).mpr
        ⟨rfl, hh.1, hh.2.1, hh.2.2.1, hh.2.2.2⟩
  · exact getPhysicsClient_evict s id t

/-- Witness for C7: a live slot resolves without mutation; a dead slot is
evicted with the counter decremented. -/
theorem claimC7_witness :
    getPhysicsClient oneLiveState 0 = (some liveTransport, oneLiveState) ∧
    getPhysicsClient oneDeadState 0 =
      (none,
        { sPhysicsClients1 := oneDeadState.sPhysicsClients1.set 0 none
          sPhysicsClientsGUI := oneDeadState.sPhysicsClientsGUI.set 0 0
          sNumPhysicsClients := oneDeadState.sNumPhysicsClients - 1 }) :=
  ⟨(claimC7_resolve_spec oneLiveState 0 liveTransport).1.mpr
      ⟨by decide, by decide, by decide, by decide⟩,
   (claimC7_resolve_spec oneDeadState 0 deadTransport).2
      (by decide) (by decide) (by decide) (by decide)⟩

/-- Claim C8: a connect that hands a (non-negative) id back to the caller
submitted exactly the two handshake round trips, in order — synchronize body
info first, then synchronize user data — and each came back with its
expected completion tag. -/
theorem claimC8_two_handshake_round_trips (s : RegistryState)
    (method : ConnectionMethod) (env : ConnectEnv) (n : Int)
    (h : (connect s method env).1 = .ok n) (hn : 0 ≤ n) :
    (connect s method env).2.2 =
      [CommandKind.SyncBodyInfo, CommandKind.SyncUserData] ∧
    env.respond .SyncBodyInfo = .CMD_SYNC_BODY_INFO_COMPLETED ∧
    env.respond .SyncUserData = .CMD_SYNC_USER_DATA_COMPLETED := by
  obtain ⟨-, -, hb, hu, htr⟩ := connect_ok_char s method env n
    (connect s method env).2.1 (connect s method env).2.2 (by rw [← h]) hn
  exact ⟨htr, hb, hu⟩

/-- Witness for C8 at a successful first connect. -/
theorem claimC8_witness :
    (connect initState .DIRECT envGood).2.2 =
      [CommandKind.SyncBodyInfo, CommandKind.SyncUserData] ∧
    envGood.respond .SyncBodyInfo = .CMD_SYNC_BODY_INFO_COMPLETED ∧
    envGood.respond .SyncUserData = .CMD_SYNC_USER_DATA_COMPLETED :=
  claimC8_two_handshake_round_trips initState .DIRECT envGood 0 (by rfl) (by decide)

/-- Claim C9: a connect that hands a non-negative id back returns the
smallest slot index that was free at the time of the call: that slot was
free, every smaller index was occupied, and the index is in range.  In
particular the first connect on the empty registry gets id 0, and freed ids
are reused. -/
theorem claimC9_least_free_index (s : RegistryState)
    (method : ConnectionMethod) (env : ConnectEnv) (n : Int)
    (h : (connect s method env).1 = .ok n) (hn : 0 ≤ n) :
    slotAt s n = none ∧
    (∀ j : Nat, (j : Int) < n → s.sPhysicsClients1.getD j none ≠ none) ∧
    n.toNat < s.sPhysicsClients1.length := by
  obtain ⟨hscan, hid, -, -, -⟩ := connect_ok_char s method env n
    (connect s method env).2.1 (connect s method env).2.2 (by rw [← h]) hn
  obtain ⟨hlen, hfree, hmin⟩ := scanFree_spec s.sPhysicsClients1 hscan
  subst hid
  exact ⟨hfree, fun j hj => hmin j (by omega), hlen⟩

/-- Witness for C9: the first connect on the empty registry gets id 0. -/
theorem claimC9_witness :
    slotAt initState 0 = none ∧
    (∀ j : Nat, (j : Int) < 0 → initState.sPhysicsClients1.getD j none ≠ none) ∧
    (0 : Int).toNat < initState.sPhysicsClients1.length :=
  claimC9_least_free_index initState .DIRECT envGood 0 (by rfl) (by decide)

/-- Claim C10: isConnected and connectionInfo are total over all integer ids:
for a negative id, an id at or beyond capacity, or an id whose slot is free,
they report not-connected (0, and method code 0 in connectionInfo) with the
registry untouched, while a per-connection operation such as stepSimulation
raises NotConnected on the very same id. -/
theorem claimC10_introspection_total (s : RegistryState) (id : Int)
    (respond : CommandKind → StatusType)
    (h : id < 0 ∨ (MAX_PHYSICS_CLIENTS : Int) ≤ id ∨ slotAt s id = none) :
    isConnected s id = (0, s) ∧
    getConnectionInfo s id = ((0, 0), s) ∧
    (stepSimulation s id respond).1 = .error .NotConnected := by
  have hg := getPhysicsClient_none_of_free s id h
  refine ⟨?_, ?_, ?_⟩
  · unfold isConnected
    rw [hg]
  · unfold getConnectionInfo
    rw [hg]
  · unfold stepSimulation
    rw [hg]

/-- Witness for C10 at the negative id -1. -/
theorem claimC10_witness :
    isConnected initState (-1) = (0, initState) ∧
    getConnectionInfo initState (-1) = ((0, 0), initState) ∧
    (stepSimulation initState (-1) envGood.respond).1 = .error .NotConnected :=
  claimC10_introspection_total initState (-1) envGood.respond (by decide)

end PyBullet
